import Mathlib

/-!
Shallow embedding of `model_api/opennmt_model.py` (class `ONMTmodelAPI`).

The OpenNMT / torchtext library calls (`Translator.translate_batch` together
with `TranslationBuilder.from_batch`, the dataset and iterator plumbing) are
external collaborators; they are modelled as an abstract `Runtime` whose
single operation returns, per input example, the per-sequence data that the
Python code reads out of `batch_data` and `translations`.  Everything the
repository's own code does — tokenization, vocabulary lookup of forced
partial-decode prefixes, the mutation of `self.opt` / `self.translator`,
the assembly of the reply dictionary, and the rounding of numeric values —
is translated directly from the source.  Machine floats are modelled as
rationals; Python's `round` (banker's rounding) is `pyRound`.
-/

/-- `UNK = 0` from the source header: the index that torchtext's
`vocab.stoi` defaultdict returns for out-of-vocabulary tokens. -/
def UNK : Nat := 0

/-- Whitespace test used by Python's `str.split()` / `str.strip()`. -/
def isWS (c : Char) : Bool := c.isWhitespace

/-- Accumulator-based whitespace splitter over the character list:
the core of Python's `str.split()` (no separator argument), which drops
empty fields and ignores leading/trailing whitespace. -/
def wsTokensAux (acc : List Char) : List Char → List (List Char)
  | [] => if acc.isEmpty then [] else [acc.reverse]
  | c :: cs =>
    if isWS c then
      if acc.isEmpty then wsTokensAux [] cs else acc.reverse :: wsTokensAux [] cs
    else wsTokensAux (c :: acc) cs

/-- Python `s.split()`: split on runs of whitespace, no empty tokens. -/
def pySplit (s : String) : List String := (wsTokensAux [] s.data).map String.mk

/-- Python `s.strip()`: drop leading and trailing whitespace. -/
def pyStrip (s : String) : String :=
  String.mk (((s.data.dropWhile isWS).reverse.dropWhile isWS).reverse)

/-- Line tokenization in `textDataFromString` (line 402):
`line.strip().split()`. -/
def tokenizeLine (s : String) : List String := pySplit (pyStrip s)

/-- Splitter for iterating the lines of an `io.StringIO` buffer. -/
def linesAux (acc : List Char) : List Char → List String
  | [] => [String.mk acc.reverse]
  | c :: cs =>
    if c = '\n' then String.mk acc.reverse :: linesAux [] cs
    else linesAux (c :: acc) cs

/-- The lines yielded by `io.StringIO(s)`: none for the empty string. -/
def pyLines (s : String) : List String :=
  if s.data.isEmpty then [] else linesAux [] s.data

/-- The example token lists produced by
`make_text_examples_nfeats_tpl('\n'.join(in_text), 0, 'src')` (lines
290-292 and 398-414): each line of the joined input, stripped and split
on whitespace.  `truncate = 0` is falsy so no truncation happens, and
`extract_text_features` is the identity on feature-free tokens. -/
def mkExamples (in_text : List String) : List (List String) :=
  (pyLines (String.intercalate "\n" in_text)).map tokenizeLine

/-- Floor of a rational. -/
def qFloor (q : ℚ) : ℤ := ⌊q⌋

/-- Round-half-to-even on rationals, the tie rule of Python's `round`. -/
def roundHalfEven (q : ℚ) : ℤ :=
  let f := qFloor q
  let r := q - (f : ℚ)
  if r < 1 / 2 then f
  else if 1 / 2 < r then f + 1
  else if f % 2 = 0 then f else f + 1

/-- Python `round(x, nd)` on the rational model of floats. -/
def pyRound (nd : Nat) (x : ℚ) : ℚ :=
  (roundHalfEven (x * (10 : ℚ) ^ nd) : ℚ) / (10 : ℚ) ^ nd

/-- `rr = lambda x: [(round(xx, roundTo)) for xx in x]` (line 340). -/
def rr (nd : Nat) (xs : List ℚ) : List ℚ := xs.map (pyRound nd)

/-- One `{'token': ..., 'state': ...}` entry of the encoder result. -/
structure EncoderEntry where
  token : String
  state : List ℚ
  deriving DecidableEq

/-- One `currentDec` record of the decoder result (lines 368-372). -/
structure DecEntry where
  token : String
  state : List ℚ
  cstar : List ℚ
  deriving DecidableEq

/-- One final-beam entry after `convert_to_py` (lines 383-389): predicted
token id, score and state vector. -/
structure BeamEntry where
  pred : Int
  score : ℚ
  state : List ℚ
  deriving DecidableEq

/-- The per-sequence slice of `batch_data` / `translations` that the reply
assembly loop reads: encoder context columns, the builder's predicted
sentences and scores, per-hypothesis attention rows, per-hypothesis decoder
states and context vectors, the full final beam and the raw beam trace. -/
structure SeqData where
  context : List (List ℚ)
  pred_sents : List (List String)
  pred_scores : List ℚ
  attns : List (List (List ℚ))
  target_states : List (List (List ℚ))
  target_cstar : List (List (List ℚ))
  beam : List (List BeamEntry)
  beam_trace : List Int
  deriving DecidableEq

/-- The `res` dictionary stored at `reply[transIx]` (lines 344-395). -/
structure TransResult where
  encoder : List EncoderEntry
  scores : List ℚ
  decoder : List (List DecEntry)
  attn : List (List (List ℚ))
  beam : List (List BeamEntry)
  beam_trace : List Int
  deriving DecidableEq

/-- An exception raised inside the model runtime (encode / decode step);
`seqIx` names the sequence whose search raised. -/
structure RTErr where
  seqIx : Nat
  deriving DecidableEq

/-- Exceptions that escape `translate`. -/
inductive TErr where
  | stopIteration : TErr
  | indexError : TErr
  | decodeFailure : RTErr → TErr
  deriving DecidableEq

/-- The external OpenNMT pipeline behind one `translate_batch` +
`from_batch` round trip.  Arguments: the example token lists, the
translator's (possibly raised) `beam_size`, the translator's `n_best`
(set to the call's `k`), the builder's `n_best` (the constructor-time
`self.opt.n_best`), the forced partial-decode token ids, and the
attention overwrite directives.  `wf` is the library guarantee that
`from_batch` yields exactly one `Translation` per example. -/
structure Runtime where
  translate_batch : List (List String) → Nat → Nat → Nat →
    List (List Nat) → List (List (Nat × Nat)) → Except RTErr (List SeqData)
  wf : ∀ ex bs nb bnb pIds ao out,
    translate_batch ex bs nb bnb pIds ao = Except.ok out → out.length = ex.length

/-- torchtext `vocab.stoi[tok]`: a defaultdict that yields the `UNK`
index for tokens missing from the vocabulary. -/
def stoi (v : String → Option Nat) (t : String) : Nat := (v t).getD UNK

/-- Conversion of the `partial_decode` strings into token-id lists
(lines 320-328): each prefix is split on whitespace and looked up in the
target vocabulary's `stoi`. -/
def partialIdsOf (v : String → Option Nat) (pdec : List String) : List (List Nat) :=
  pdec.map (fun p => (pySplit p).map (stoi v))

/-- The fields of `self.opt` that `translate` reads or writes. -/
structure ONMTOpts where
  beam_size : Nat
  n_best : Nat
  batch_size : Nat
  replace_unk : Bool
  deriving DecidableEq

/-- The mutable `self.translator` attributes touched by `translate`. -/
structure TranslatorState where
  beam_size : Nat
  n_best : Nat
  deriving DecidableEq

/-- The state of an `ONMTmodelAPI` object: the stored options, the
translator's mutable configuration, the target vocabulary of the loaded
model, and the model runtime. -/
structure ONMTmodelAPI where
  opt : ONMTOpts
  translator : TranslatorState
  tgtVocab : String → Option Nat
  runtime : Runtime

/-- `ONMTmodelAPI.__init__(model_loc, gpu=-1, beam_size=5, k=5)`
(lines 206-245): `opt.beam_size = beam_size`, `opt.batch_size = 1`,
`opt.n_best = k`, and the translator is constructed with the same
beam size and `n_best`. -/
def ONMTmodelAPI.init (rt : Runtime) (v : String → Option Nat)
    (beam_size : Nat := 5) (k : Nat := 5) : ONMTmodelAPI :=
  { opt := { beam_size := beam_size, n_best := k, batch_size := 1, replace_unk := false }
    translator := { beam_size := beam_size, n_best := k }
    tgtVocab := v
    runtime := rt }

/-- The encoder result (lines 346-351): `zip(in_text[transIx].split(),
context)`, each state rounded. -/
def mkEncoder (nd : Nat) (tokens : List String) (context : List (List ℚ)) :
    List EncoderEntry :=
  (tokens.zip context).map (fun p => { token := p.1, state := rr nd p.2 })

/-- One hypothesis' decoder records (lines 360-373): `zip(p,
trans.attns[ix], target_states[transIx][ix], target_cstar[transIx][ix])`,
yielding for every step the `currentDec` record (state and `cstar`
rounded) paired with the rounded attention row. -/
def mkTop (nd ix : Nat) (sd : SeqData) (p : List String) :
    List (DecEntry × List ℚ) :=
  (((p.zip (sd.attns.getD ix [])).zip
      (sd.target_states.getD ix [])).zip (sd.target_cstar.getD ix [])).map
    (fun q =>
      ({ token := q.1.1.1, state := rr nd q.1.2, cstar := rr nd q.2 },
        rr nd q.1.1.2))

/-- The `for ix, p in enumerate(trans.pred_sents[:k])` loop (lines
356-377): a decoder entry and an attention entry are appended only when
`p` is non-empty; `ix` advances for every element of the slice. -/
def mkDecAttnGo (nd : Nat) (sd : SeqData) :
    Nat → List (List String) → List (List DecEntry) × List (List (List ℚ))
  | _, [] => ([], [])
  | ix, p :: rest =>
    let tail := mkDecAttnGo nd sd (ix + 1) rest
    if p.isEmpty then tail
    else
      ((mkTop nd ix sd p).map Prod.fst :: tail.1,
        (mkTop nd ix sd p).map Prod.snd :: tail.2)

/-- Assembly of one `res` dictionary (lines 344-394) for the sequence
whose raw input string is `src`. -/
def mkRes (nd k : Nat) (src : String) (sd : SeqData) : TransResult :=
  let da := mkDecAttnGo nd sd 0 (sd.pred_sents.take k)
  { encoder := mkEncoder nd (pySplit src) sd.context
    scores := sd.pred_scores.take k
    decoder := da.1
    attn := da.2
    beam := sd.beam.map (fun hyp =>
      hyp.map (fun e => { pred := e.pred, score := e.score, state := rr nd e.state }))
    beam_trace := sd.beam_trace }

/-- The `for transIx, trans in enumerate(translations)` loop (lines
341-395) building `reply`; `in_text[transIx]` raises `IndexError` when
the index is out of range, aborting the whole call. -/
def buildReply (nd k : Nat) (in_text : List String) :
    Nat → List SeqData → Except TErr (List (Nat × TransResult))
  | _, [] => Except.ok []
  | ix, sd :: rest =>
    match in_text.get? ix with
    | none => Except.error TErr.indexError
    | some src =>
      match buildReply nd k in_text (ix + 1) rest with
      | Except.error e => Except.error e
      | Except.ok r => Except.ok ((ix, mkRes nd k src sd) :: r)

/-- `self.opt.batch_size = len(in_text)` (line 257). -/
def ONMTmodelAPI.setBatchSize (m : ONMTmodelAPI) (n : Nat) : ONMTmodelAPI :=
  { m with opt := { m.opt with batch_size := n } }

/-- `self.translator.n_best = k` (line 309). -/
def ONMTmodelAPI.setNBest (m : ONMTmodelAPI) (k : Nat) : ONMTmodelAPI :=
  { m with translator := { m.translator with n_best := k } }

/-- `if self.translator.beam_size < k: self.translator.beam_size = k`
(lines 312-313). -/
def ONMTmodelAPI.raiseBeam (m : ONMTmodelAPI) (k : Nat) : ONMTmodelAPI :=
  if m.translator.beam_size < k then
    { m with translator := { m.translator with beam_size := k } }
  else m

/-- `ONMTmodelAPI.translate` (lines 247-396).  Returns the object state
after the call (the Python method mutates `self`) together with either
the reply mapping or the exception that escapes.  Control flow in source
order: set `opt.batch_size`; build the examples (peeking the first one
raises `StopIteration` when there is none, lines 436-443); set
`translator.n_best = k` and raise `translator.beam_size` to `k` if it is
smaller; convert the partial-decode prefixes through `vocab.stoi`; run
the external batch search + builder; assemble `reply`. -/
def ONMTmodelAPI.translate (m : ONMTmodelAPI) (in_text : List String)
    (pdec : List String := []) (ao : List (List (Nat × Nat)) := [])
    (k : Nat := 5) (roundTo : Nat := 5) :
    ONMTmodelAPI × Except TErr (List (Nat × TransResult)) :=
  let m1 := m.setBatchSize in_text.length
  let examples := mkExamples in_text
  if examples.isEmpty then (m1, Except.error TErr.stopIteration)
  else
    let m2 := (m1.setNBest k).raiseBeam k
    let pIds := partialIdsOf m.tgtVocab pdec
    match m2.runtime.translate_batch examples m2.translator.beam_size
        m2.translator.n_best m2.opt.n_best pIds ao with
    | Except.error e => (m2, Except.error (TErr.decodeFailure e))
    | Except.ok datas => (m2, buildReply roundTo k in_text 0 datas)

/-- A `SeqData` with every component empty. -/
def emptySeqData : SeqData :=
  { context := [], pred_sents := [], pred_scores := [], attns := []
    target_states := [], target_cstar := [], beam := [], beam_trace := [] }

/-- A runtime that answers every example with the same fixed data. -/
def constRuntime (sd : SeqData) : Runtime :=
  { translate_batch := fun ex _ _ _ _ _ => Except.ok (ex.map (fun _ => sd))
    wf := by
      intro ex bs nb bnb pIds ao out h
      cases h
      simp }

/-- A runtime that records the forced partial-decode ids it receives in
the `beam_trace` of every answer. -/
def echoRuntime : Runtime :=
  { translate_batch := fun ex _ _ _ pIds _ =>
      Except.ok (ex.map (fun _ =>
        { emptySeqData with beam_trace := pIds.flatten.map Int.ofNat }))
    wf := by
      intro ex bs nb bnb pIds ao out h
      cases h
      simp }

/-- A runtime whose search always raises (sequence 1). -/
def failRuntime : Runtime :=
  { translate_batch := fun _ _ _ _ _ _ => Except.error { seqIx := 1 }
    wf := by intro ex bs nb bnb pIds ao out h; cases h }

/-- A small concrete target vocabulary (no entry for `"xyz"`). -/
def demoVocab : String → Option Nat := fun t =>
  if t = "das" then some 7 else if t = "ist" then some 8 else none

/-- `True` exactly on `Except.ok`. -/
def exceptIsOk {ε α : Type} : Except ε α → Bool
  | Except.ok _ => true
  | Except.error _ => false

/-- A concrete API object over the constant runtime. -/
def apiW : ONMTmodelAPI := ONMTmodelAPI.init (constRuntime emptySeqData) demoVocab 5 5

/-- A concrete API object whose runtime always raises. -/
def apiFail : ONMTmodelAPI := ONMTmodelAPI.init failRuntime demoVocab 5 5

/-- A concrete API object over the echoing runtime. -/
def apiEcho : ONMTmodelAPI := ONMTmodelAPI.init echoRuntime demoVocab 5 5

/-- A rational whose 5-decimal rounding is not itself. -/
def q3 : ℚ := 1 / 3

/-- Sequence data whose final beam carries an unrounded score. -/
def beamSeqData : SeqData :=
  { emptySeqData with beam := [[{ pred := 2, score := q3, state := [q3] }]] }

/-- A concrete API object whose runtime reports `beamSeqData`. -/
def apiBeam : ONMTmodelAPI := ONMTmodelAPI.init (constRuntime beamSeqData) demoVocab 5 5

/-- Sequence data with one one-step hypothesis carrying states/attention. -/
def sdTop : SeqData :=
  { emptySeqData with
    pred_sents := [["x"]]
    pred_scores := [q3]
    attns := [[[q3]]]
    target_states := [[[q3]]]
    target_cstar := [[[q3]]] }

/-- Sequence data whose second-best predicted sentence is empty. -/
def sdEmptyHyp : SeqData :=
  { emptySeqData with
    pred_sents := [["a"], []]
    pred_scores := [q3, q3] }

/-! Helper lemmas about the embedded operations. -/

@[simp]
theorem setBatchSize_translator (m : ONMTmodelAPI) (n : Nat) :
    (m.setBatchSize n).translator = m.translator := rfl

@[simp]
theorem setBatchSize_tgtVocab (m : ONMTmodelAPI) (n : Nat) :
    (m.setBatchSize n).tgtVocab = m.tgtVocab := rfl

@[simp]
theorem setBatchSize_runtime (m : ONMTmodelAPI) (n : Nat) :
    (m.setBatchSize n).runtime = m.runtime := rfl

@[simp]
theorem setBatchSize_opt_beam (m : ONMTmodelAPI) (n : Nat) :
    (m.setBatchSize n).opt.beam_size = m.opt.beam_size := rfl

@[simp]
theorem setBatchSize_opt_n_best (m : ONMTmodelAPI) (n : Nat) :
    (m.setBatchSize n).opt.n_best = m.opt.n_best := rfl

@[simp]
theorem setBatchSize_opt_batch (m : ONMTmodelAPI) (n : Nat) :
    (m.setBatchSize n).opt.batch_size = n := rfl

@[simp]
theorem setBatchSize_opt_replace (m : ONMTmodelAPI) (n : Nat) :
    (m.setBatchSize n).opt.replace_unk = m.opt.replace_unk := rfl

@[simp]
theorem setNBest_translator_beam (m : ONMTmodelAPI) (k : Nat) :
    (m.setNBest k).translator.beam_size = m.translator.beam_size := rfl

@[simp]
theorem setNBest_translator_n_best (m : ONMTmodelAPI) (k : Nat) :
    (m.setNBest k).translator.n_best = k := rfl

@[simp]
theorem setNBest_opt (m : ONMTmodelAPI) (k : Nat) :
    (m.setNBest k).opt = m.opt := rfl

@[simp]
theorem setNBest_tgtVocab (m : ONMTmodelAPI) (k : Nat) :
    (m.setNBest k).tgtVocab = m.tgtVocab := rfl

@[simp]
theorem setNBest_runtime (m : ONMTmodelAPI) (k : Nat) :
    (m.setNBest k).runtime = m.runtime := rfl

@[simp]
theorem raiseBeam_translator_beam (m : ONMTmodelAPI) (k : Nat) :
    (m.raiseBeam k).translator.beam_size =
      if m.translator.beam_size < k then k else m.translator.beam_size := by
  unfold ONMTmodelAPI.raiseBeam
  split <;> rfl

@[simp]
theorem raiseBeam_translator_n_best (m : ONMTmodelAPI) (k : Nat) :
    (m.raiseBeam k).translator.n_best = m.translator.n_best := by
  unfold ONMTmodelAPI.raiseBeam
  split <;> rfl

@[simp]
theorem raiseBeam_opt (m : ONMTmodelAPI) (k : Nat) :
    (m.raiseBeam k).opt = m.opt := by
  unfold ONMTmodelAPI.raiseBeam
  split <;> rfl

@[simp]
theorem raiseBeam_tgtVocab (m : ONMTmodelAPI) (k : Nat) :
    (m.raiseBeam k).tgtVocab = m.tgtVocab := by
  unfold ONMTmodelAPI.raiseBeam
  split <;> rfl

@[simp]
theorem raiseBeam_runtime (m : ONMTmodelAPI) (k : Nat) :
    (m.raiseBeam k).runtime = m.runtime := by
  unfold ONMTmodelAPI.raiseBeam
  split <;> rfl

theorem translate_fst (m : ONMTmodelAPI) (it pdec : List String)
    (ao : List (List (Nat × Nat))) (k rT : Nat)
    (hne : (mkExamples it).isEmpty = false) :
    (m.translate it pdec ao k rT).1 =
      ((m.setBatchSize it.length).setNBest k).raiseBeam k := by
  simp only [ONMTmodelAPI.translate]
  rw [hne]
  simp only [Bool.false_eq_true, if_false]
  cases ((m.setBatchSize it.length).setNBest k).raiseBeam k
    |>.runtime.translate_batch (mkExamples it) _ _ _ _ ao <;> rfl

theorem translate_snd (m : ONMTmodelAPI) (it pdec : List String)
    (ao : List (List (Nat × Nat))) (k rT : Nat)
    (hne : (mkExamples it).isEmpty = false) :
    (m.translate it pdec ao k rT).2 =
      match m.runtime.translate_batch (mkExamples it)
          (if m.translator.beam_size < k then k else m.translator.beam_size) k
          m.opt.n_best (partialIdsOf m.tgtVocab pdec) ao with
      | Except.error e => Except.error (TErr.decodeFailure e)
      | Except.ok datas => buildReply rT k it 0 datas := by
  simp only [ONMTmodelAPI.translate]
  rw [hne]
  simp only [Bool.false_eq_true, if_false, raiseBeam_runtime, setNBest_runtime,
    setBatchSize_runtime, raiseBeam_translator_beam, setNBest_translator_beam,
    setBatchSize_translator, raiseBeam_translator_n_best, setNBest_translator_n_best,
    raiseBeam_opt, setNBest_opt, setBatchSize_opt_n_best, setBatchSize_tgtVocab]
  cases m.runtime.translate_batch (mkExamples it) _ k m.opt.n_best
    (partialIdsOf m.tgtVocab pdec) ao <;> rfl

theorem roundHalfEven_intCast (z : ℤ) : roundHalfEven (z : ℚ) = z := by
  simp only [roundHalfEven, qFloor, Int.floor_intCast, sub_self]
  norm_num

theorem pyRound_idem (nd : Nat) (x : ℚ) :
    pyRound nd (pyRound nd x) = pyRound nd x := by
  unfold pyRound
  have hp : ((10 : ℚ) ^ nd) ≠ 0 := by positivity
  rw [div_mul_cancel₀ _ hp, roundHalfEven_intCast]

theorem map_pyRound_rr (nd : Nat) (xs : List ℚ) :
    (rr nd xs).map (pyRound nd) = rr nd xs := by
  unfold rr
  rw [List.map_map]
  exact List.map_congr_left fun x _ => pyRound_idem nd x

theorem wsTokensAux_all_ws (w : List Char) (hw : ∀ c ∈ w, isWS c = true) :
    ∀ acc, wsTokensAux acc w = if acc.isEmpty then [] else [acc.reverse] := by
  induction w with
  | nil => intro acc; rfl
  | cons c cs ih =>
    intro acc
    have hc : isWS c = true := hw c (by simp)
    have ih' := ih (fun x hx => hw x (by simp [hx]))
    rw [wsTokensAux, hc, if_pos rfl]
    cases acc with
    | nil => simp [ih' []]
    | cons a as => simp [ih' []]

theorem wsTokensAux_append_ws (w : List Char) (hw : ∀ c ∈ w, isWS c = true) :
    ∀ (l acc : List Char), wsTokensAux acc (l ++ w) = wsTokensAux acc l := by
  intro l
  induction l with
  | nil =>
    intro acc
    rw [List.nil_append, wsTokensAux_all_ws w hw acc]
    rfl
  | cons c cs ih =>
    intro acc
    rw [List.cons_append, wsTokensAux, wsTokensAux]
    by_cases hc : isWS c
    · rw [if_pos hc, if_pos hc]
      cases acc <;> simp [ih]
    · rw [if_neg hc, if_neg hc, ih]

theorem wsTokensAux_dropWhile (l : List Char) :
    wsTokensAux [] (l.dropWhile isWS) = wsTokensAux [] l := by
  induction l with
  | nil => rfl
  | cons c cs ih =>
    by_cases hc : isWS c
    · rw [List.dropWhile_cons_of_pos hc, ih, wsTokensAux, if_pos hc]
      rfl
    · rw [List.dropWhile_cons_of_neg hc]

theorem tokenizeLine_eq_pySplit (s : String) : tokenizeLine s = pySplit s := by
  unfold tokenizeLine pySplit pyStrip
  congr 1
  show wsTokensAux []
      (((s.data.dropWhile isWS).reverse.dropWhile isWS).reverse) =
    wsTokensAux [] s.data
  have hw : ∀ c ∈ ((s.data.dropWhile isWS).reverse.takeWhile isWS).reverse,
      isWS c = true := by
    intro c hc
    rw [List.mem_reverse] at hc
    exact List.mem_takeWhile_imp hc
  have hdec : (s.data.dropWhile isWS) =
      ((s.data.dropWhile isWS).reverse.dropWhile isWS).reverse ++
        ((s.data.dropWhile isWS).reverse.takeWhile isWS).reverse := by
    rw [← List.reverse_append, List.takeWhile_append_dropWhile, List.reverse_reverse]
  rw [wsTokensAux_append_ws _ hw
      ((s.data.dropWhile isWS).reverse.dropWhile isWS).reverse [] |>.symm,
    ← hdec, wsTokensAux_dropWhile]

theorem buildReply_props (nd k : Nat) (it : List String) :
    ∀ (datas : List SeqData) (ix : Nat), ix + datas.length ≤ it.length →
      ∃ r, buildReply nd k it ix datas = Except.ok r ∧
        r.map Prod.fst = List.range' ix datas.length ∧
        ∀ pr ∈ r, ∃ sd, pr.2 = mkRes nd k (it.getD pr.1 "") sd := by
  intro datas
  induction datas with
  | nil =>
    intro ix h
    exact ⟨[], rfl, by simp, by simp⟩
  | cons sd rest ih =>
    intro ix h
    have hix : ix < it.length := by
      simp only [List.length_cons] at h
      omega
    have hget : it.get? ix = some (it.getD ix "") := by
      rw [List.get?_eq_getElem?, List.getElem?_eq_getElem hix,
        List.getD_eq_getElem?_getD, List.getElem?_eq_getElem hix]
      rfl
    obtain ⟨r, hr, hmap, hmem⟩ := ih (ix + 1) (by
      simp only [List.length_cons] at h
      omega)
    refine ⟨(ix, mkRes nd k (it.getD ix "") sd) :: r, ?_, ?_, ?_⟩
    · rw [buildReply, hget, hr]
    · simp only [List.map_cons, hmap, List.length_cons, List.range'_succ]
    · intro pr hpr
      rcases List.mem_cons.mp hpr with hh | ht
      · exact ⟨sd, by rw [hh]⟩
      · exact hmem pr ht

theorem mkDecAttnGo_snd_len (nd : Nat) (sd : SeqData) :
    ∀ (ps : List (List String)) (ix : Nat),
      (mkDecAttnGo nd sd ix ps).2.length = (mkDecAttnGo nd sd ix ps).1.length := by
  intro ps
  induction ps with
  | nil => intro ix; rfl
  | cons p rest ih =>
    intro ix
    simp only [mkDecAttnGo]
    by_cases hp : p.isEmpty
    · simp only [hp, if_pos rfl]
      exact ih (ix + 1)
    · simp only [hp]
      simp [ih (ix + 1)]

theorem mkDecAttnGo_fst_len_le (nd : Nat) (sd : SeqData) :
    ∀ (ps : List (List String)) (ix : Nat),
      (mkDecAttnGo nd sd ix ps).1.length ≤ ps.length := by
  intro ps
  induction ps with
  | nil => intro ix; exact Nat.le_refl 0
  | cons p rest ih =>
    intro ix
    simp only [mkDecAttnGo]
    by_cases hp : p.isEmpty
    · simp only [hp, if_pos rfl, List.length_cons]
      exact Nat.le_succ_of_le (ih (ix + 1))
    · simp only [hp, List.length_cons]
      simp only [Bool.false_eq_true, if_false, List.length_cons]
      exact Nat.succ_le_succ (ih (ix + 1))

theorem mkDecAttnGo_fst_len_lt (nd : Nat) (sd : SeqData) :
    ∀ (ps : List (List String)) (ix : Nat), ([] : List String) ∈ ps →
      (mkDecAttnGo nd sd ix ps).1.length < ps.length := by
  intro ps
  induction ps with
  | nil => intro ix h; cases h
  | cons p rest ih =>
    intro ix h
    simp only [mkDecAttnGo]
    rcases List.mem_cons.mp h with hh | ht
    · have hp : p.isEmpty = true := by rw [← hh]; rfl
      simp only [hp, if_pos rfl, List.length_cons]
      exact Nat.lt_succ_of_le (mkDecAttnGo_fst_len_le nd sd rest (ix + 1))
    · by_cases hp : p.isEmpty
      · simp only [hp, if_pos rfl, List.length_cons]
        exact Nat.lt_succ_of_lt (ih (ix + 1) ht)
      · simp only [hp, Bool.false_eq_true, if_false, List.length_cons]
        exact Nat.succ_lt_succ (ih (ix + 1) ht)

/-! Claim theorems. -/

/-- C1: for every call to `translate` with requested result count `k`
greater than the translator's current beam width, the beam width is
raised to exactly `k` (hence to at least `k`) before the batch search is
invoked, and for `k` less than or equal to the current beam width the
beam width is left unchanged.  The post-call translator beam width is the
one the search was invoked with. -/
theorem C1_beam_size_raised (m : ONMTmodelAPI) (it pdec : List String)
    (ao : List (List (Nat × Nat))) (k rT : Nat)
    (hne : (mkExamples it).isEmpty = false) :
    (m.translator.beam_size < k →
      ((m.translate it pdec ao k rT).1).translator.beam_size = k) ∧
    (k ≤ m.translator.beam_size →
      ((m.translate it pdec ao k rT).1).translator.beam_size =
        m.translator.beam_size) := by
  rw [translate_fst m it pdec ao k rT hne]
  simp only [raiseBeam_translator_beam, setNBest_translator_beam,
    setBatchSize_translator]
  constructor
  · intro h
    rw [if_pos h]
  · intro h
    rw [if_neg (Nat.not_lt.mpr h)]

/-- Witness for C1 at a concrete input: the beam width 5 is raised to 7. -/
theorem C1_beam_size_raised_witness :
    ((apiW.translate ["a"] [] [] 7 5).1).translator.beam_size = 7 :=
  (C1_beam_size_raised apiW ["a"] [] [] 7 5 (by decide)).1 (by decide)

/-- C9: calling `translate` with an empty list of input sequences raises
`StopIteration` (the peek of the first example fails) before any
decoding happens, so it never returns a result mapping at all. -/
theorem C9_empty_input_raises (m : ONMTmodelAPI) (pdec : List String)
    (ao : List (List (Nat × Nat))) (k rT : Nat) :
    (m.translate [] pdec ao k rT).2 = Except.error TErr.stopIteration := rfl

/-- C4 counterexample: the claim that no field of the API object changes
across a `translate` call fails — a call with `k = 10` permanently
raises the translator's beam width from 5 to 10, and also rewrites
`opt.batch_size`. -/
theorem C4_counterexample :
    ((apiW.translate ["a b"] [] [] 10 5).1).translator.beam_size ≠
      apiW.translator.beam_size ∧
    ((apiW.translate ["a b"] [] [] 10 5).1).translator.beam_size = 10 ∧
    apiW.translator.beam_size = 5 := by
  refine ⟨?_, rfl, rfl⟩
  decide

/-- C4 amended: `translate` does mutate persistent state: it sets
`opt.batch_size` to the number of inputs, sets the translator's `n_best`
to the call's `k`, and raises the translator's beam width to `k` whenever
`k` exceeds it (these changes survive the call); the remaining fields —
the other stored options, the vocabulary and the loaded model runtime —
are unchanged. -/
theorem C4_amended_state_change (m : ONMTmodelAPI) (it pdec : List String)
    (ao : List (List (Nat × Nat))) (k rT : Nat)
    (hne : (mkExamples it).isEmpty = false) :
    ((m.translate it pdec ao k rT).1).opt.batch_size = it.length ∧
    ((m.translate it pdec ao k rT).1).translator.n_best = k ∧
    ((m.translate it pdec ao k rT).1).translator.beam_size =
      (if m.translator.beam_size < k then k else m.translator.beam_size) ∧
    ((m.translate it pdec ao k rT).1).opt.beam_size = m.opt.beam_size ∧
    ((m.translate it pdec ao k rT).1).opt.n_best = m.opt.n_best ∧
    ((m.translate it pdec ao k rT).1).opt.replace_unk = m.opt.replace_unk ∧
    ((m.translate it pdec ao k rT).1).tgtVocab = m.tgtVocab ∧
    ((m.translate it pdec ao k rT).1).runtime = m.runtime := by
  rw [translate_fst m it pdec ao k rT hne]
  simp

/-- Witness for C4 amended at a concrete input. -/
theorem C4_amended_state_change_witness :
    ((apiW.translate ["a b"] [] [] 10 5).1).opt.batch_size =
      (["a b"] : List String).length ∧
    ((apiW.translate ["a b"] [] [] 10 5).1).translator.n_best = 10 ∧
    ((apiW.translate ["a b"] [] [] 10 5).1).translator.beam_size =
      (if apiW.translator.beam_size < 10 then 10 else apiW.translator.beam_size) ∧
    ((apiW.translate ["a b"] [] [] 10 5).1).opt.beam_size = apiW.opt.beam_size ∧
    ((apiW.translate ["a b"] [] [] 10 5).1).opt.n_best = apiW.opt.n_best ∧
    ((apiW.translate ["a b"] [] [] 10 5).1).opt.replace_unk = apiW.opt.replace_unk ∧
    ((apiW.translate ["a b"] [] [] 10 5).1).tgtVocab = apiW.tgtVocab ∧
    ((apiW.translate ["a b"] [] [] 10 5).1).runtime = apiW.runtime :=
  C4_amended_state_change apiW ["a b"] [] [] 10 5 (by decide)

/-- C2 counterexample: with a runtime that raises for sequence 1 of the
batch `["a", "b"]`, `translate` does not return a result mapping with a
per-sequence error marker — the whole call fails with a single
propagated decode failure, so no entry exists for any sequence. -/
theorem C2_counterexample :
    exceptIsOk ((apiFail.translate ["a", "b"] [] [] 5 5).2) = false ∧
    (apiFail.translate ["a", "b"] [] [] 5 5).2 =
      Except.error (TErr.decodeFailure { seqIx := 1 }) := ⟨rfl, rfl⟩

/-- C2 amended: if the model runtime raises while searching the batch,
`translate` does not continue with the remaining sequences: the
exception propagates and the whole call returns that single failure, so
no per-sequence results (and no error markers) are produced. -/
theorem C2_amended_failure_aborts_batch (m : ONMTmodelAPI)
    (it pdec : List String) (ao : List (List (Nat × Nat))) (k rT : Nat)
    (e : RTErr) (hne : (mkExamples it).isEmpty = false)
    (hf : m.runtime.translate_batch (mkExamples it)
        (if m.translator.beam_size < k then k else m.translator.beam_size) k
        m.opt.n_best (partialIdsOf m.tgtVocab pdec) ao = Except.error e) :
    (m.translate it pdec ao k rT).2 = Except.error (TErr.decodeFailure e) := by
  rw [translate_snd m it pdec ao k rT hne, hf]

/-- Witness for C2 amended at a concrete input. -/
theorem C2_amended_failure_aborts_batch_witness :
    (apiFail.translate ["a", "b"] [] [] 5 5).2 =
      Except.error (TErr.decodeFailure { seqIx := 1 }) :=
  C2_amended_failure_aborts_batch apiFail ["a", "b"] [] [] 5 5
    { seqIx := 1 } (by decide) rfl

/-- C3 counterexample: the token `"xyz"` is missing from the target
vocabulary, yet `translate` with forced partial `["xyz"]` reports no
error at all: the defaultdict lookup substitutes the `UNK` index 0 and
the search runs with it (the echoing runtime shows the id list `[0]`
that reached the decoder). -/
theorem C3_counterexample :
    demoVocab "xyz" = none ∧
    (apiEcho.translate ["a"] ["xyz"] [] 5 5).2 =
      Except.ok [(0, { encoder := [], scores := [], decoder := [], attn := [],
                       beam := [], beam_trace := [Int.ofNat UNK] })] := ⟨rfl, rfl⟩

/-- C3 amended: a forced-partial token that is not in the target
vocabulary is not reported as an error before search; `vocab.stoi` is a
defaultdict, so the token is silently mapped to the `UNK` index 0 and
decoding proceeds with the substituted token. -/
theorem C3_amended_oov_becomes_unk (v : String → Option Nat) (t : String)
    (h : v t = none) (hs : pySplit t = [t]) :
    partialIdsOf v [t] = [[UNK]] ∧
    ((ONMTmodelAPI.init echoRuntime v 5 5).translate ["a"] [t] [] 5 5).2 =
      Except.ok [(0, { encoder := [], scores := [], decoder := [], attn := [],
                       beam := [], beam_trace := [Int.ofNat UNK] })] := by
  have h1 : partialIdsOf v [t] = [[UNK]] := by
    simp [partialIdsOf, hs, stoi, h]
  refine ⟨h1, ?_⟩
  rw [translate_snd _ _ _ _ _ _ (by decide)]
  have hproj : partialIdsOf
      (ONMTmodelAPI.init echoRuntime v 5 5).tgtVocab [t] = [[UNK]] := h1
  rw [hproj]
  rfl

/-- Witness for C3 amended at a concrete vocabulary and token. -/
theorem C3_amended_oov_becomes_unk_witness :
    partialIdsOf demoVocab ["xyz"] = [[UNK]] ∧
    ((ONMTmodelAPI.init echoRuntime demoVocab 5 5).translate
        ["a"] ["xyz"] [] 5 5).2 =
      Except.ok [(0, { encoder := [], scores := [], decoder := [], attn := [],
                       beam := [], beam_trace := [Int.ofNat UNK] })] :=
  C3_amended_oov_becomes_unk demoVocab "xyz" rfl (by decide)

theorem setBatchSize_idem (m : ONMTmodelAPI) (n : Nat) :
    (m.setBatchSize n).setBatchSize n = m.setBatchSize n := rfl

theorem effState_stable (m : ONMTmodelAPI) (n k : Nat) :
    (((((m.setBatchSize n).setNBest k).raiseBeam k).setBatchSize n).setNBest
        k).raiseBeam k =
      ((m.setBatchSize n).setNBest k).raiseBeam k := by
  obtain ⟨⟨b1, b2, b3, b4⟩, ⟨tb, tn⟩, v, rt⟩ := m
  simp only [ONMTmodelAPI.setBatchSize, ONMTmodelAPI.setNBest,
    ONMTmodelAPI.raiseBeam]
  by_cases h : tb < k <;> simp [h, Nat.lt_irrefl]

theorem raise_raise (a k : Nat) :
    (if (if a < k then k else a) < k then k else if a < k then k else a) =
      if a < k then k else a := by
  split_ifs <;> omega

/-- C5: `translate` is deterministic and idempotent — although it
mutates the object's stored options and translator configuration, a
second call on the post-call state with identical inputs, forced
partials, attention overrides, `k` and precision returns the identical
result mapping and leaves the state exactly where the first call left
it. -/
theorem C5_translate_idempotent (m : ONMTmodelAPI) (it pdec : List String)
    (ao : List (List (Nat × Nat))) (k rT : Nat) :
    (m.translate it pdec ao k rT).1.translate it pdec ao k rT =
      m.translate it pdec ao k rT := by
  by_cases hE : (mkExamples it).isEmpty = true
  · have h1 : m.translate it pdec ao k rT =
        (m.setBatchSize it.length, Except.error TErr.stopIteration) := by
      simp only [ONMTmodelAPI.translate, hE, if_true]
    have h2 : (m.setBatchSize it.length).translate it pdec ao k rT =
        ((m.setBatchSize it.length).setBatchSize it.length,
          Except.error TErr.stopIteration) := by
      simp only [ONMTmodelAPI.translate, hE, if_true]
    rw [h1, h2, setBatchSize_idem]
  · have hne : (mkExamples it).isEmpty = false := by
      rwa [Bool.not_eq_true] at hE
    have hfst := translate_fst m it pdec ao k rT hne
    apply Prod.ext
    · rw [translate_fst _ it pdec ao k rT hne, hfst, effState_stable]
    · rw [translate_snd _ it pdec ao k rT hne,
        translate_snd m it pdec ao k rT hne, hfst]
      simp only [raiseBeam_runtime, setNBest_runtime, setBatchSize_runtime,
        raiseBeam_translator_beam, setNBest_translator_beam,
        setBatchSize_translator, raiseBeam_opt, setNBest_opt,
        setBatchSize_opt_n_best, raiseBeam_tgtVocab, setNBest_tgtVocab,
        setBatchSize_tgtVocab, raise_raise]

/-- C6: for inputs that survive the newline-join round trip (no raw
string contains a line break), a successful `translate` call returns a
mapping whose keys are exactly the input indices `0 .. len-1`, and every
value is the Translation Result assembled by `mkRes` from that
sequence's data — per-token encoder states, per-hypothesis decoder
records, attention vectors, scores, the full final beam and the raw
beam trace. -/
theorem C6_reply_keys_and_shape (m : ONMTmodelAPI) (it pdec : List String)
    (ao : List (List (Nat × Nat))) (k rT : Nat)
    (h : pyLines (String.intercalate "\n" it) = it)
    (reply : List (Nat × TransResult))
    (hok : (m.translate it pdec ao k rT).2 = Except.ok reply) :
    reply.map Prod.fst = List.range it.length ∧
    ∀ pr ∈ reply, ∃ sd : SeqData, pr.2 = mkRes rT k (it.getD pr.1 "") sd := by
  have hex : mkExamples it = it.map tokenizeLine := by
    rw [mkExamples, h]
  by_cases hE : (mkExamples it).isEmpty = true
  · exfalso
    rw [ONMTmodelAPI.translate] at hok
    simp only [hE, if_true] at hok
    cases hok
  · have hne : (mkExamples it).isEmpty = false := by
      rwa [Bool.not_eq_true] at hE
    rw [translate_snd m it pdec ao k rT hne] at hok
    rcases hR : m.runtime.translate_batch (mkExamples it)
        (if m.translator.beam_size < k then k else m.translator.beam_size) k
        m.opt.n_best (partialIdsOf m.tgtVocab pdec) ao with e | datas
    · rw [hR] at hok
      cases hok
    · rw [hR] at hok
      have hok' : buildReply rT k it 0 datas = Except.ok reply := hok
      have hlen : datas.length = it.length := by
        rw [m.runtime.wf _ _ _ _ _ _ _ hR, hex, List.length_map]
      obtain ⟨r, hr, hmap, hmem⟩ :=
        buildReply_props rT k it datas 0 (by omega)
      rw [hr] at hok'
      cases hok'
      refine ⟨?_, hmem⟩
      rw [hmap, hlen, List.range_eq_range']

/-- Witness for C6 at a concrete two-sequence input. -/
theorem C6_reply_keys_and_shape_witness :
    ([((0 : Nat), mkRes 5 5 "a b" emptySeqData),
      ((1 : Nat), mkRes 5 5 "c" emptySeqData)].map Prod.fst =
        List.range (["a b", "c"] : List String).length) ∧
    (∃ sd : SeqData, ((0 : Nat), mkRes 5 5 "a b" emptySeqData).2 =
        mkRes 5 5 ((["a b", "c"] : List String).getD 0 "") sd) :=
  ⟨(C6_reply_keys_and_shape apiW ["a b", "c"] [] [] 5 5 (by decide)
      [(0, mkRes 5 5 "a b" emptySeqData), (1, mkRes 5 5 "c" emptySeqData)]
      rfl).1,
    (C6_reply_keys_and_shape apiW ["a b", "c"] [] [] 5 5 (by decide)
      [(0, mkRes 5 5 "a b" emptySeqData), (1, mkRes 5 5 "c" emptySeqData)]
      rfl).2 (0, mkRes 5 5 "a b" emptySeqData) (by simp)⟩

/-- C7: every input sequence is tokenized by whitespace splitting — the
strip-then-split done when the dataset examples are built agrees with
plain whitespace splitting for every string — and for inputs surviving
the newline-join round trip the dataset examples are exactly the
whitespace tokenizations; the encoder result pairs exactly that token
list, in order, with the encoder states whenever enough states are
available. -/
theorem C7_whitespace_tokenization (rT : Nat) :
    (∀ s : String, tokenizeLine s = pySplit s) ∧
    (∀ it : List String, pyLines (String.intercalate "\n" it) = it →
      mkExamples it = it.map pySplit) ∧
    (∀ (tokens : List String) (ctx : List (List ℚ)),
      tokens.length ≤ ctx.length →
      (mkEncoder rT tokens ctx).map (fun e => e.token) = tokens) := by
  refine ⟨tokenizeLine_eq_pySplit, ?_, ?_⟩
  · intro it h
    rw [mkExamples, h]
    exact List.map_congr_left fun s _ => tokenizeLine_eq_pySplit s
  · intro tokens ctx hlen
    unfold mkEncoder
    rw [List.map_map]
    have hcomp : ((fun e : EncoderEntry => e.token) ∘
        fun p : String × List ℚ => { token := p.1, state := rr rT p.2 }) =
          Prod.fst := rfl
    rw [hcomp, List.map_fst_zip _ _ hlen]

/-- Witness for C7 at concrete strings and a concrete encoder pairing. -/
theorem C7_whitespace_tokenization_witness :
    tokenizeLine " a  b " = pySplit " a  b " ∧
    mkExamples ["a b", "c"] = (["a b", "c"] : List String).map pySplit ∧
    (mkEncoder 5 ["x"] [[1, 2]]).map (fun e => e.token) = ["x"] :=
  ⟨(C7_whitespace_tokenization 5).1 " a  b ",
    (C7_whitespace_tokenization 5).2.1 ["a b", "c"] (by decide),
    (C7_whitespace_tokenization 5).2.2 ["x"] [[1, 2]] (by decide)⟩

/-- C8 counterexample: the beam entries of the returned Translation
Result keep their scores unrounded — with a beam score of `1/3` the
reply carries `1/3` itself (while its state vector is rounded), and
`1/3` is not a 5-decimal rounded value. -/
theorem C8_counterexample :
    (apiBeam.translate ["a"] [] [] 5 5).2 =
      Except.ok [(0, { encoder := [], scores := [], decoder := [], attn := [],
                       beam := [[{ pred := 2, score := q3, state := rr 5 [q3] }]],
                       beam_trace := [] })] ∧
    pyRound 5 q3 ≠ q3 := by
  refine ⟨rfl, ?_⟩
  unfold q3 pyRound roundHalfEven qFloor
  norm_num

/-- C8 amended: the per-token numeric data — encoder states, decoder
states, context-vector snapshots, attention vectors, and the state
vectors of beam entries — are rounded to `roundTo` decimal places
(default 5, also the default of the `translate` argument); the
hypothesis scores and the beam entries' scores, however, are returned
unrounded. -/
theorem C8_amended_rounding (nd k ix : Nat) (src : String) (sd : SeqData)
    (p : List String) (q : DecEntry × List ℚ) (hq : q ∈ mkTop nd ix sd p)
    (m : ONMTmodelAPI) (it : List String) :
    m.translate it = m.translate it [] [] 5 5 ∧
    (mkRes nd k src sd).scores = sd.pred_scores.take k ∧
    (mkRes nd k src sd).beam = sd.beam.map (fun hyp =>
      hyp.map (fun e =>
        { pred := e.pred, score := e.score, state := rr nd e.state })) ∧
    (mkRes nd k src sd).encoder = ((pySplit src).zip sd.context).map
      (fun pr => { token := pr.1, state := rr nd pr.2 }) ∧
    q.1.state.map (pyRound nd) = q.1.state ∧
    q.1.cstar.map (pyRound nd) = q.1.cstar ∧
    q.2.map (pyRound nd) = q.2 := by
  obtain ⟨a, ha, hfa⟩ := List.mem_map.mp hq
  refine ⟨rfl, rfl, rfl, rfl, ?_, ?_, ?_⟩
  · rw [← hfa]
    exact map_pyRound_rr nd a.1.2
  · rw [← hfa]
    exact map_pyRound_rr nd a.2
  · rw [← hfa]
    exact map_pyRound_rr nd a.1.1.2

/-- Witness for C8 amended at a concrete one-step hypothesis. -/
theorem C8_amended_rounding_witness :
    apiW.translate ["a"] = apiW.translate ["a"] [] [] 5 5 ∧
    (mkRes 5 5 "a" sdTop).scores = sdTop.pred_scores.take 5 ∧
    (mkRes 5 5 "a" sdTop).beam = sdTop.beam.map (fun hyp =>
      hyp.map (fun e =>
        { pred := e.pred, score := e.score, state := rr 5 e.state })) ∧
    (mkRes 5 5 "a" sdTop).encoder = ((pySplit "a").zip sdTop.context).map
      (fun pr => { token := pr.1, state := rr 5 pr.2 }) ∧
    (({ token := "x", state := rr 5 [q3], cstar := rr 5 [q3] }, rr 5 [q3]) :
        DecEntry × List ℚ).1.state.map (pyRound 5) =
      (({ token := "x", state := rr 5 [q3], cstar := rr 5 [q3] }, rr 5 [q3]) :
        DecEntry × List ℚ).1.state ∧
    (({ token := "x", state := rr 5 [q3], cstar := rr 5 [q3] }, rr 5 [q3]) :
        DecEntry × List ℚ).1.cstar.map (pyRound 5) =
      (({ token := "x", state := rr 5 [q3], cstar := rr 5 [q3] }, rr 5 [q3]) :
        DecEntry × List ℚ).1.cstar ∧
    (({ token := "x", state := rr 5 [q3], cstar := rr 5 [q3] }, rr 5 [q3]) :
        DecEntry × List ℚ).2.map (pyRound 5) =
      (({ token := "x", state := rr 5 [q3], cstar := rr 5 [q3] }, rr 5 [q3]) :
        DecEntry × List ℚ).2 :=
  C8_amended_rounding 5 5 0 "a" sdTop ["x"]
    ({ token := "x", state := rr 5 [q3], cstar := rr 5 [q3] }, rr 5 [q3])
    (List.mem_singleton.mpr rfl) apiW ["a"]

/-- C10: a decoder entry and an attention entry are appended only for
non-empty predicted sentences, while scores are taken for all of the
top `k` hypotheses; so when an empty predicted sentence occurs among the
top `k`, the decoder and attention lists are strictly shorter than the
scores list (and track each other), so their positions no longer align
with the scores. -/
theorem C10_empty_hyp_misaligns (nd k : Nat) (src : String) (sd : SeqData)
    (hlen : sd.pred_scores.length = sd.pred_sents.length)
    (i : Nat) (hik : i < k) (hil : i < sd.pred_sents.length)
    (hemp : sd.pred_sents.getD i ["?"] = []) :
    (mkRes nd k src sd).decoder.length < (mkRes nd k src sd).scores.length ∧
    (mkRes nd k src sd).attn.length = (mkRes nd k src sd).decoder.length := by
  have hitake : i < (sd.pred_sents.take k).length := by
    rw [List.length_take]
    omega
  have hgd : (sd.pred_sents.take k).getD i ["?"] = [] := by
    rw [List.getD_eq_getElem?_getD, List.getElem?_take, if_pos hik,
      ← List.getD_eq_getElem?_getD, hemp]
  have hmem : ([] : List String) ∈ sd.pred_sents.take k := by
    rw [List.getD_eq_getElem?_getD, List.getElem?_eq_getElem hitake] at hgd
    rw [← hgd]
    exact List.getElem_mem hitake
  have hsc : (mkRes nd k src sd).scores.length = (sd.pred_sents.take k).length := by
    show (sd.pred_scores.take k).length = _
    rw [List.length_take, List.length_take, hlen]
  refine ⟨?_, ?_⟩
  · rw [hsc]
    exact mkDecAttnGo_fst_len_lt nd sd (sd.pred_sents.take k) 0 hmem
  · exact mkDecAttnGo_snd_len nd sd (sd.pred_sents.take k) 0

/-- Witness for C10: with predicted sentences `[["a"], []]` and two
scores, the decoder list has 1 entry against 2 scores. -/
theorem C10_empty_hyp_misaligns_witness :
    (mkRes 5 2 "s" sdEmptyHyp).decoder.length <
      (mkRes 5 2 "s" sdEmptyHyp).scores.length ∧
    (mkRes 5 2 "s" sdEmptyHyp).attn.length =
      (mkRes 5 2 "s" sdEmptyHyp).decoder.length :=
  C10_empty_hyp_misaligns 5 2 "s" sdEmptyHyp (by decide) 1 (by decide)
    (by decide) (by decide)

